import Mathlib

/-!
Verification of the MGC3130 gesture-sensor driver (`sky.py`).

The pure core of the driver is shallowly embedded here:
bytes are `Nat`, fallible payload indexing is `Except Unit`,
the decoder produces a list of typed events, and the bus /
GPIO environment is passed in explicitly (a stream of frames
for the status wait, a pin-operation trace for the transport).
-/

namespace Skywriter

/-! ## Identifiers and masks (from the source constants) -/

def SW_SYSTEM_STATUS : Nat := 0x15
def SW_REQUEST_MSG   : Nat := 0x06
def SW_FW_VERSION    : Nat := 0x83
def SW_SET_RUNTIME   : Nat := 0xA2
def SW_SENSOR_DATA   : Nat := 0x91

def SW_DATA_DSP      : Nat := 1 <<< 0
def SW_DATA_GESTURE  : Nat := 1 <<< 1
def SW_DATA_TOUCH    : Nat := 1 <<< 2
def SW_DATA_AIRWHEEL : Nat := 1 <<< 3
def SW_DATA_XYZ      : Nat := 1 <<< 4

def SYS_POSITION_VALID : Nat := 1 <<< 0
def SYS_AIRWHEEL_VALID : Nat := 1 <<< 1

/-- Touch action bit order, most-significant bit (14) first. -/
def TOUCH_ACTIONS : List (String × String) := [
  ("doubletap", "center"),
  ("doubletap", "east"),
  ("doubletap", "north"),
  ("doubletap", "west"),
  ("doubletap", "south"),
  ("tap",       "center"),
  ("tap",       "east"),
  ("tap",       "north"),
  ("tap",       "west"),
  ("tap",       "south"),
  ("touch",     "center"),
  ("touch",     "east"),
  ("touch",     "north"),
  ("touch",     "west"),
  ("touch",     "south")
]

/-- Gesture id lookup (the `GESTURES` dict). -/
def GESTURES : Nat → Option (String × String × String)
  | 1 => some ("garbage", "", "")
  | 2 => some ("flick", "west", "east")
  | 3 => some ("flick", "east", "west")
  | 4 => some ("flick", "south", "north")
  | 5 => some ("flick", "north", "south")
  | 6 => some ("circle", "clockwise", "")
  | 7 => some ("circle", "counter-clockwise", "")
  | _ => none

/-! ## Helpers -/

/-- Helper `u16(lsb, msb) = (msb << 8) | lsb`. -/
def u16 (lsb msb : Nat) : Nat := (msb <<< 8) ||| lsb

/-- Round-half-to-even to an integer, the rounding used by the host
builtin `round` of the host language on exactly-representable inputs.  Computed
by integer arithmetic on the numerator and denominator: with
`n = ⌊q⌋`, the fractional part `q - n` is compared against `1/2` by
comparing twice its numerator against the denominator. -/
def roundHalfEven (q : ℚ) : ℤ :=
  let n : ℤ := q.floor
  let r2 : ℤ := 2 * (q.num - n * q.den)
  if r2 < (q.den : ℤ) then n
  else if (q.den : ℤ) < r2 then n + 1
  else if n % 2 = 0 then n else n + 1

/-- Normalization `normalize_0_1(val) = round(val / 65536.0, 4)`: scale a raw 16-bit
value to `[0, 1]` and round to 4 decimal digits.  `v / 65536` is a
dyadic rational, exactly representable in the binary floating point
of the source, so the rational model is exact: the result is
`roundHalfEven (v / 65536 * 10000) / 10000`. -/
def normalize_0_1 (v : Nat) : ℚ :=
  Rat.divInt (roundHalfEven (Rat.divInt (v * 10000) 65536)) 10000

/-! ## Event model

One constructor per distinct output the decoder can emit. -/

inductive Event where
  | position (x y z : ℚ)
  | gestureNamed (kind a b : String)
  | gestureUnknown (gid : Nat)
  | touch (kind pos : String)
  | touchBit (i : Nat)
  | airwheel (raw : Nat)
  | fw (text : List Nat)
deriving DecidableEq, Repr

instance : DecidableEq (Except Unit (List Event)) := fun a b =>
  match a, b with
  | .ok x, .ok y => decidable_of_iff (x = y) (by simp)
  | .error x, .error y => decidable_of_iff (x = y) (by simp)
  | .ok _, .error _ => isFalse (by simp)
  | .error _, .ok _ => isFalse (by simp)

/-- Fallible list indexing: `payload[i]` raises `IndexError` out of range. -/
def idx (p : List Nat) (i : Nat) : Except Unit Nat :=
  match p[i]? with
  | some b => .ok b
  | none => .error ()

/-! ## Touch scan

`for idx in range(16): if action & comp: ...; break; comp >>= 1`
starting from `comp = 1 << 14`.  The fuel argument is the number of
loop iterations left (16 at the start). -/

def touchScanAux (action : Nat) : Nat → Nat → Nat → List Event
  | 0, _, _ => []
  | fuel + 1, i, comp =>
    if action &&& comp ≠ 0 then
      match TOUCH_ACTIONS[i]? with
      | some kp => [Event.touch kp.1 kp.2]
      | none => [Event.touchBit i]
    else touchScanAux action fuel (i + 1) (comp >>> 1)

def touchScan (action : Nat) : List Event := touchScanAux action 16 0 (1 <<< 14)

/-! ## Sensor-data payload decoding (`handle_sensor_data`)

Payload layout (after the 4-byte header): configmask 0-1, timestamp 2,
sysinfo 3, dspstatus 4-5, gesture 6-9, touch 10-13, airwheel 14-15,
xyz 16-21. -/

def xyzSection (payload : List Nat) (configmask sysinfo : Nat) :
    Except Unit (List Event) :=
  if configmask &&& SW_DATA_XYZ ≠ 0 ∧ sysinfo &&& SYS_POSITION_VALID ≠ 0 then
    match idx payload 16, idx payload 17, idx payload 18,
          idx payload 19, idx payload 20, idx payload 21 with
    | .ok xl, .ok xh, .ok yl, .ok yh, .ok zl, .ok zh =>
      .ok [Event.position (normalize_0_1 (u16 xl xh))
             (normalize_0_1 (u16 yl yh)) (normalize_0_1 (u16 zl zh))]
    | _, _, _, _, _, _ => .error ()
  else .ok []

def gestureSection (payload : List Nat) (configmask : Nat) :
    Except Unit (List Event) :=
  if configmask &&& SW_DATA_GESTURE ≠ 0 then
    match idx payload 6 with
    | .error e => .error e
    | .ok gid =>
      if gid ≠ 0 then
        match GESTURES gid with
        | some g => .ok [Event.gestureNamed g.1 g.2.1 g.2.2]
        | none => .ok [Event.gestureUnknown gid]
      else .ok []
  else .ok []

def touchSection (payload : List Nat) (configmask : Nat) :
    Except Unit (List Event) :=
  if configmask &&& SW_DATA_TOUCH ≠ 0 then
    match idx payload 11, idx payload 10 with
    | .ok t1, .ok t0 => .ok (touchScan ((t1 <<< 8) ||| t0))
    | _, _ => .error ()
  else .ok []

def airwheelSection (payload : List Nat) (configmask sysinfo : Nat) :
    Except Unit (List Event) :=
  if configmask &&& SW_DATA_AIRWHEEL ≠ 0 ∧ sysinfo &&& SYS_AIRWHEEL_VALID ≠ 0 then
    match idx payload 14 with
    | .error e => .error e
    | .ok rot => .ok [Event.airwheel rot]
  else .ok []

def handle_sensor_data (payload : List Nat) : Except Unit (List Event) :=
  match idx payload 0 with
  | .error e => .error e
  | .ok p0 =>
  match idx payload 1 with
  | .error e => .error e
  | .ok p1 =>
  match idx payload 3 with
  | .error e => .error e
  | .ok sysinfo =>
  match xyzSection payload (p0 ||| p1 <<< 8) sysinfo with
  | .error e => .error e
  | .ok a =>
  match gestureSection payload (p0 ||| p1 <<< 8) with
  | .error e => .error e
  | .ok b =>
  match touchSection payload (p0 ||| p1 <<< 8) with
  | .error e => .error e
  | .ok c =>
  match airwheelSection payload (p0 ||| p1 <<< 8) sysinfo with
  | .error e => .error e
  | .ok d => .ok (a ++ b ++ c ++ d)

/-! ## Firmware text decoding

The source runs `bytes(payload[8:]).decode(errors=ignore).strip(NUL CR LF SP)`.
UTF-8 decoding with the `ignore` error handler: invalid sequences are
skipped following the maximal-subpart rule (span 1 for a bad start
byte or a bad first continuation, otherwise the valid leading bytes). -/

def cont (c : Nat) : Bool := 0x80 ≤ c ∧ c < 0xC0

/-- First-continuation range for a 3-byte start (excludes overlongs and
surrogates). -/
def cont3 (b c : Nat) : Bool :=
  if b = 0xE0 then 0xA0 ≤ c ∧ c < 0xC0
  else if b = 0xED then 0x80 ≤ c ∧ c < 0xA0
  else cont c

/-- First-continuation range for a 4-byte start (excludes overlongs and
values above U+10FFFF). -/
def cont4 (b c : Nat) : Bool :=
  if b = 0xF0 then 0x90 ≤ c ∧ c < 0xC0
  else if b = 0xF4 then 0x80 ≤ c ∧ c < 0x90
  else cont c

def utf8Aux : Nat → List Nat → List Nat
  | 0, _ => []
  | _, [] => []
  | fuel + 1, b :: rest =>
    if b < 0x80 then b :: utf8Aux fuel rest
    else if b < 0xC2 then utf8Aux fuel rest
    else if b < 0xE0 then
      match rest with
      | [] => []
      | c :: rest2 =>
        if cont c then
          (((b &&& 0x1F) <<< 6) ||| (c &&& 0x3F)) :: utf8Aux fuel rest2
        else utf8Aux fuel (c :: rest2)
    else if b < 0xF0 then
      match rest with
      | [] => []
      | c :: rest2 =>
        if cont3 b c then
          match rest2 with
          | [] => []
          | c2 :: rest3 =>
            if cont c2 then
              (((b &&& 0xF) <<< 12) ||| ((c &&& 0x3F) <<< 6) ||| (c2 &&& 0x3F)) ::
                utf8Aux fuel rest3
            else utf8Aux fuel (c2 :: rest3)
        else utf8Aux fuel (c :: rest2)
    else if b < 0xF5 then
      match rest with
      | [] => []
      | c :: rest2 =>
        if cont4 b c then
          match rest2 with
          | [] => []
          | c2 :: rest3 =>
            if cont c2 then
              match rest3 with
              | [] => []
              | c3 :: rest4 =>
                if cont c3 then
                  (((b &&& 0x7) <<< 18) ||| ((c &&& 0x3F) <<< 12) |||
                    ((c2 &&& 0x3F) <<< 6) ||| (c3 &&& 0x3F)) ::
                    utf8Aux fuel rest4
                else utf8Aux fuel (c3 :: rest4)
            else utf8Aux fuel (c2 :: rest3)
        else utf8Aux fuel (c :: rest2)
    else utf8Aux fuel rest

/-- UTF-8 decode with the `ignore` error handler.  The fuel (one unit
per byte consumed from the front) always suffices since each step
consumes at least one byte. -/
def utf8DecodeIgnore (l : List Nat) : List Nat := utf8Aux l.length l

/-- The characters stripped by the strip call: NUL, CR, LF, space. -/
def STRIP_CHARS : List Nat := [0, 13, 10, 32]

/-- Python str.strip with a character set: remove the given characters from both ends. -/
def pyStrip (l : List Nat) : List Nat :=
  ((l.dropWhile (fun c => STRIP_CHARS.contains c)).reverse.dropWhile
    (fun c => STRIP_CHARS.contains c)).reverse

/-! ## Frame dispatch (`process_frame`) -/

def process_frame (frame : List Nat) : Except Unit (List Event) :=
  if frame.length < 4 then .ok []
  else
    let d_ident := frame.getD 3 0
    let payload := frame.drop 4
    if d_ident = SW_SENSOR_DATA then handle_sensor_data payload
    else if d_ident = SW_SYSTEM_STATUS then .ok []
    else if d_ident = SW_FW_VERSION then
      .ok [Event.fw (pyStrip (utf8DecodeIgnore (payload.drop 8)))]
    else .ok []

/-! ## Frame transport (`read_frame_raw`)

The transfer-ready (XFER) line state is modelled by the trace of pin
operations the function performs; the bus read is an oracle passed in
(`.error` = the 32-byte block read raised).  The `try/finally` of the
source runs the two release operations on both the success and the
error path before the result (or the exception) propagates. -/

inductive PinOp where
  | initOutLow   -- `pin_xfer.init(Pin.OUT, value=0)`: take output ownership, drive low
  | setHigh      -- `pin_xfer.value(1)`: drive high
  | initInPullUp -- `pin_xfer.init(Pin.IN, Pin.PULL_UP)`: release to input with pull-up
deriving DecidableEq, Repr

def XFER_RELEASE : List PinOp := [PinOp.setHigh, PinOp.initInPullUp]

def read_frame_raw (xfer_low : Bool) (bus : Except Unit (List Nat)) :
    Except Unit (Option (List Nat)) × List PinOp :=
  if xfer_low = false then (.ok none, [])
  else
    match bus with
    | .ok rx => (.ok (some rx), PinOp.initOutLow :: XFER_RELEASE)
    | .error e => (.error e, PinOp.initOutLow :: XFER_RELEASE)

/-! ## Status acknowledgement wait (`get_status_expect`)

The environment is the stream of poll outcomes: on tick `i`, `env i` is
the frame obtained (`none` when the ready line was high or the transport
returned nothing).  `get_status_from` also returns the next unused tick
so that consecutive waits can share one stream. -/

def check_frame (cmd : Nat) (d : Option (List Nat)) : Except Unit Bool :=
  match d with
  | none => .ok false
  | some f =>
    if f = [] then .ok false
    else
      match idx f 3 with
      | .error e => .error e
      | .ok b3 =>
        if b3 = SW_SYSTEM_STATUS then
          match idx f 4 with
          | .error e => .error e
          | .ok b4 => .ok (decide (b4 = cmd))
        else .ok false

def get_status_from (cmd : Nat) (env : Nat → Option (List Nat)) :
    Nat → Nat → Except Unit (Bool × Nat)
  | start, 0 => .ok (false, start)
  | start, n + 1 =>
    match check_frame cmd (env start) with
    | .error e => .error e
    | .ok true => .ok (true, start + 1)
    | .ok false => get_status_from cmd env (start + 1) n

def get_status_expect (cmd tries : Nat) (env : Nat → Option (List Nat)) :
    Except Unit Bool :=
  match get_status_from cmd env 0 tries with
  | .error e => .error e
  | .ok r => .ok r.1

/-- Transport invariant: a delivered frame is the fixed 32-byte read
window (`i2c.readfrom_mem(SW_ADDR, 0x00, 32)`). -/
def wfFrame (d : Option (List Nat)) : Prop := ∀ f, d = some f → f.length = 32

/-- The match condition of the wait:
`data and data[3] == SW_SYSTEM_STATUS and data[4] == cmd_id`. -/
def status_match (cmd : Nat) : Option (List Nat) → Bool
  | none => false
  | some f => decide (f[3]? = some SW_SYSTEM_STATUS) && decide (f[4]? = some cmd)

/-! ## Runtime configuration (`configure_runtime`)

Four block writes to register 0x10, each followed by a status wait.
The run records the result, the trace of `(register, bytes)` writes
issued, and the stream position at which each wait started. -/

def CMD_AIRWHEEL : List Nat :=
  [0x00, 0x00, SW_SET_RUNTIME, 0x90, 0x00, 0x00, 0x00,
   0x20, 0x00, 0x00, 0x00,
   0x20, 0x00, 0x00, 0x00]

def CMD_GESTURES : List Nat :=
  [0x00, 0x00, SW_SET_RUNTIME, 0x85, 0x00, 0x00, 0x00,
   0b01111111, 0x00, 0x00, 0x00,
   0b01111111, 0x00, 0x00, 0x00]

def enable_mask : Nat :=
  SW_DATA_DSP ||| SW_DATA_GESTURE ||| SW_DATA_TOUCH |||
  SW_DATA_AIRWHEEL ||| SW_DATA_XYZ

def CMD_DATA_OUTPUTS : List Nat :=
  [0x00, 0x00, SW_SET_RUNTIME, 0xA0, 0x00, 0x00, 0x00,
   enable_mask, 0x00, 0x00, 0x00,
   enable_mask, 0x00, 0x00, 0x00]

def CMD_AUTOCAL : List Nat :=
  [0x00, 0x00, SW_SET_RUNTIME, 0x80, 0x00, 0x00, 0x00,
   0x00, 0x00, 0x00, 0x00,
   enable_mask, 0x00, 0x00, 0x00]

def CONFIG_WRITES : List (Nat × List Nat) :=
  [(0x10, CMD_AIRWHEEL), (0x10, CMD_GESTURES),
   (0x10, CMD_DATA_OUTPUTS), (0x10, CMD_AUTOCAL)]

/-- The distinct `RuntimeError` raised per failed step, plus the
`IndexError` a malformed frame raises out of the inner wait. -/
inductive CfgError where
  | idxErr | airwheel | gestures | dataOutputs | autocal
deriving DecidableEq, Repr

structure CfgRun where
  res : Except CfgError Unit
  writes : List (Nat × List Nat)
  waitStarts : List Nat
deriving Repr

def configure_runtime (env : Nat → Option (List Nat)) : CfgRun :=
  match get_status_from SW_SET_RUNTIME env 0 10 with
  | .error _ => ⟨.error .idxErr, [(0x10, CMD_AIRWHEEL)], [0]⟩
  | .ok (false, _) => ⟨.error .airwheel, [(0x10, CMD_AIRWHEEL)], [0]⟩
  | .ok (true, t1) =>
  match get_status_from SW_SET_RUNTIME env t1 10 with
  | .error _ =>
    ⟨.error .idxErr, [(0x10, CMD_AIRWHEEL), (0x10, CMD_GESTURES)], [0, t1]⟩
  | .ok (false, _) =>
    ⟨.error .gestures, [(0x10, CMD_AIRWHEEL), (0x10, CMD_GESTURES)], [0, t1]⟩
  | .ok (true, t2) =>
  match get_status_from SW_SET_RUNTIME env t2 10 with
  | .error _ =>
    ⟨.error .idxErr,
     [(0x10, CMD_AIRWHEEL), (0x10, CMD_GESTURES), (0x10, CMD_DATA_OUTPUTS)],
     [0, t1, t2]⟩
  | .ok (false, _) =>
    ⟨.error .dataOutputs,
     [(0x10, CMD_AIRWHEEL), (0x10, CMD_GESTURES), (0x10, CMD_DATA_OUTPUTS)],
     [0, t1, t2]⟩
  | .ok (true, t3) =>
  match get_status_from SW_SET_RUNTIME env t3 10 with
  | .error _ => ⟨.error .idxErr, CONFIG_WRITES, [0, t1, t2, t3]⟩
  | .ok (false, _) => ⟨.error .autocal, CONFIG_WRITES, [0, t1, t2, t3]⟩
  | .ok (true, _) => ⟨.ok (), CONFIG_WRITES, [0, t1, t2, t3]⟩

/-- The `RuntimeError` raised when the wait of step `k` exhausts. -/
def stepError : Fin 4 → CfgError
  | 0 => .airwheel
  | 1 => .gestures
  | 2 => .dataOutputs
  | 3 => .autocal

/-! ## Event predicates and decoder facts -/

def isTouchEv : Event → Bool
  | .touch _ _ => true
  | .touchBit _ => true
  | _ => false

def isPosEv : Event → Bool
  | .position _ _ _ => true
  | _ => false

/-- The event the scan emits when it stops at table index `k`. -/
def touchEventAt (k : Nat) : Event :=
  match TOUCH_ACTIONS[k]? with
  | some kp => Event.touch kp.1 kp.2
  | none => Event.touchBit k

lemma touchScanAux_length (action : Nat) :
    ∀ fuel i comp, (touchScanAux action fuel i comp).length ≤ 1 := by
  intro fuel
  induction fuel with
  | zero => intro i comp; simp [touchScanAux]
  | succ n ih =>
    intro i comp
    rw [touchScanAux]
    split
    · split <;> simp
    · exact ih (i + 1) (comp >>> 1)

lemma touchScanAux_touch (action : Nat) :
    ∀ fuel i comp e, e ∈ touchScanAux action fuel i comp → isTouchEv e = true := by
  intro fuel
  induction fuel with
  | zero => intro i comp e he; simp [touchScanAux] at he
  | succ n ih =>
    intro i comp e he
    rw [touchScanAux] at he
    split at he
    · split at he <;> simp at he <;> subst he <;> rfl
    · exact ih (i + 1) (comp >>> 1) e he

lemma touchScanAux_found (action : Nat) :
    ∀ fuel j i comp, j < fuel →
      action &&& (comp >>> j) ≠ 0 →
      (∀ k, k < j → action &&& (comp >>> k) = 0) →
      touchScanAux action fuel i comp = [touchEventAt (i + j)] := by
  intro fuel
  induction fuel with
  | zero => intro j i comp hj; omega
  | succ n ih =>
    intro j i comp hj hhit hmiss
    rw [touchScanAux]
    match j, hj with
    | 0, _ =>
      rw [Nat.shiftRight_zero] at hhit
      rw [if_pos hhit]
      simp [touchEventAt]
      split <;> rfl
    | j' + 1, _ =>
      have h0 : action &&& comp = 0 := by
        have := hmiss 0 (by omega)
        rwa [Nat.shiftRight_zero] at this
      rw [if_neg (by simp [h0])]
      have hstep : ∀ m, comp >>> (m + 1) = (comp >>> 1) >>> m := by
        intro m; rw [Nat.add_comm, Nat.shiftRight_add]
      exact ih j' (i + 1) (comp >>> 1) (by omega)
        (by rw [← hstep]; exact hhit)
        (fun k hk => by rw [← hstep]; exact hmiss (k + 1) (by omega)) ▸
        (by rw [show i + 1 + j' = i + (j' + 1) by omega])

lemma xyzSection_no_touch (p : List Nat) (cm si : Nat) (evs : List Event)
    (h : xyzSection p cm si = .ok evs) : evs.filter isTouchEv = [] := by
  unfold xyzSection at h
  split at h
  · split at h
    · injection h with h; subst h; rfl
    · exact Except.noConfusion h
  · injection h with h; subst h; rfl

lemma xyzSection_pos_iff (p : List Nat) (cm si : Nat) (evs : List Event)
    (h : xyzSection p cm si = .ok evs) :
    (∃ x y z, Event.position x y z ∈ evs) ↔
      (cm &&& SW_DATA_XYZ ≠ 0 ∧ si &&& SYS_POSITION_VALID ≠ 0) := by
  unfold xyzSection at h
  split at h
  case isTrue hc =>
    split at h
    · injection h with h; subst h
      exact ⟨fun _ => hc, fun _ => ⟨_, _, _, List.mem_singleton.mpr rfl⟩⟩
    · exact Except.noConfusion h
  case isFalse hc =>
    injection h with h; subst h
    simp only [List.not_mem_nil, exists_false, false_iff]
    exact hc

lemma gestureSection_no_touch (p : List Nat) (cm : Nat) (evs : List Event)
    (h : gestureSection p cm = .ok evs) : evs.filter isTouchEv = [] := by
  unfold gestureSection at h
  split at h
  · split at h
    · exact Except.noConfusion h
    · split at h
      · split at h
        · injection h with h; subst h; rfl
        · injection h with h; subst h; rfl
      · injection h with h; subst h; rfl
  · injection h with h; subst h; rfl

lemma gestureSection_no_pos (p : List Nat) (cm : Nat) (evs : List Event)
    (h : gestureSection p cm = .ok evs) : ∀ x y z, Event.position x y z ∉ evs := by
  unfold gestureSection at h
  split at h
  · split at h
    · exact Except.noConfusion h
    · split at h
      · split at h
        · injection h with h; subst h; simp
        · injection h with h; subst h; simp
      · injection h with h; subst h; simp
  · injection h with h; subst h; simp

lemma touchSection_filter (p : List Nat) (cm : Nat) (evs : List Event)
    (h : touchSection p cm = .ok evs) : evs.filter isTouchEv = evs := by
  unfold touchSection at h
  split at h
  · split at h
    · injection h with h; subst h
      exact List.filter_eq_self.mpr (fun e he => touchScanAux_touch _ _ _ _ e he)
    · exact Except.noConfusion h
  · injection h with h; subst h; rfl

lemma touchSection_no_pos (p : List Nat) (cm : Nat) (evs : List Event)
    (h : touchSection p cm = .ok evs) : ∀ x y z, Event.position x y z ∉ evs := by
  intro x y z hmem
  have hf := touchSection_filter p cm evs h
  have ht : isTouchEv (Event.position x y z) = true := by
    rw [← hf] at hmem
    exact List.of_mem_filter hmem
  simp [isTouchEv] at ht

lemma touchSection_of_bit0 (p : List Nat) (cm : Nat)
    (h : cm &&& SW_DATA_TOUCH = 0) : touchSection p cm = .ok [] := by
  unfold touchSection
  rw [if_neg (by simp [h])]

lemma touchSection_scan (p : List Nat) (cm : Nat) (evs : List Event) (t0 t1 : Nat)
    (hcm : cm &&& SW_DATA_TOUCH ≠ 0)
    (h10 : p[10]? = some t0) (h11 : p[11]? = some t1)
    (h : touchSection p cm = .ok evs) : evs = touchScan ((t1 <<< 8) ||| t0) := by
  unfold touchSection at h
  rw [if_pos hcm] at h
  unfold idx at h
  rw [h10, h11] at h
  simp only at h
  injection h with h
  exact h.symm

lemma airwheelSection_no_touch (p : List Nat) (cm si : Nat) (evs : List Event)
    (h : airwheelSection p cm si = .ok evs) : evs.filter isTouchEv = [] := by
  unfold airwheelSection at h
  split at h
  · split at h
    · exact Except.noConfusion h
    · injection h with h; subst h; rfl
  · injection h with h; subst h; rfl

lemma airwheelSection_no_pos (p : List Nat) (cm si : Nat) (evs : List Event)
    (h : airwheelSection p cm si = .ok evs) :
    ∀ x y z, Event.position x y z ∉ evs := by
  unfold airwheelSection at h
  split at h
  · split at h
    · exact Except.noConfusion h
    · injection h with h; subst h; simp
  · injection h with h; subst h; simp

lemma handle_ok_parts (p : List Nat) (evs : List Event)
    (h : handle_sensor_data p = .ok evs) :
    ∃ p0 p1 si a b c d,
      p[0]? = some p0 ∧ p[1]? = some p1 ∧ p[3]? = some si ∧
      xyzSection p (p0 ||| p1 <<< 8) si = .ok a ∧
      gestureSection p (p0 ||| p1 <<< 8) = .ok b ∧
      touchSection p (p0 ||| p1 <<< 8) = .ok c ∧
      airwheelSection p (p0 ||| p1 <<< 8) si = .ok d ∧
      evs = a ++ b ++ c ++ d := by
  unfold handle_sensor_data at h
  split at h
  · exact Except.noConfusion h
  next p0 h0 =>
    split at h
    · exact Except.noConfusion h
    next p1 h1 =>
      split at h
      · exact Except.noConfusion h
      next si h3 =>
        split at h
        · exact Except.noConfusion h
        next a ha =>
          split at h
          · exact Except.noConfusion h
          next b hb =>
            split at h
            · exact Except.noConfusion h
            next c hc =>
              split at h
              · exact Except.noConfusion h
              next d hd =>
                injection h with h
                refine ⟨p0, p1, si, a, b, c, d, ?_, ?_, ?_, ha, hb, hc, hd, h.symm⟩
                · unfold idx at h0; revert h0; split <;> simp_all
                · unfold idx at h1; revert h1; split <;> simp_all
                · unfold idx at h3; revert h3; split <;> simp_all

end Skywriter

namespace Skywriter

lemma one_shiftLeft_shiftRight (k : Nat) (hk : k ≤ 14) :
    (1 <<< 14 : Nat) >>> k = 2 ^ (14 - k) := by
  rw [Nat.shiftLeft_eq, one_mul, Nat.shiftRight_eq_div_pow]
  exact Nat.pow_div hk (by norm_num)

lemma and_two_pow_ne_zero (a b : Nat) : a &&& 2 ^ b ≠ 0 ↔ a.testBit b = true := by
  rw [Nat.and_two_pow]
  cases h : a.testBit b <;> simp [h]

/-- The scan stops exactly at the highest set bit `b ≤ 14` and emits
the action at table index `14 - b`. -/
lemma touchScan_highest_bit (action b : Nat) (hb : b ≤ 14)
    (hset : action.testBit b = true)
    (hhi : ∀ j, b < j → j ≤ 14 → action.testBit j = false) :
    touchScan action = [touchEventAt (14 - b)] := by
  unfold touchScan
  have h := touchScanAux_found action 16 (14 - b) 0 (1 <<< 14) (by omega)
    (by
      rw [one_shiftLeft_shiftRight (14 - b) (by omega),
        show 14 - (14 - b) = b by omega]
      exact (and_two_pow_ne_zero action b).mpr hset)
    (by
      intro k hk
      rw [one_shiftLeft_shiftRight k (by omega),
        Nat.and_two_pow, hhi (14 - k) (by omega) (by omega)]
      simp)
  simpa using h

lemma touchSection_length (p : List Nat) (cm : Nat) (evs : List Event)
    (h : touchSection p cm = .ok evs) : evs.length ≤ 1 := by
  unfold touchSection at h
  split at h
  · split at h
    · injection h with h; subst h; exact touchScanAux_length _ _ _ _
    · exact Except.noConfusion h
  · injection h with h; subst h; simp

/-- The touch events of a decoded sensor-data payload are exactly the
output of the touch section. -/
lemma handle_filter_touch (p : List Nat) (evs : List Event)
    (h : handle_sensor_data p = .ok evs) :
    ∃ p0 p1 c,
      p[0]? = some p0 ∧ p[1]? = some p1 ∧
      touchSection p (p0 ||| p1 <<< 8) = .ok c ∧
      evs.filter isTouchEv = c := by
  obtain ⟨p0, p1, si, a, b, c, d, h0, h1, h3, ha, hb, hc, hd, hevs⟩ :=
    handle_ok_parts p evs h
  refine ⟨p0, p1, c, h0, h1, hc, ?_⟩
  subst hevs
  simp only [List.filter_append, xyzSection_no_touch p _ _ a ha,
    gestureSection_no_touch p _ b hb, touchSection_filter p _ c hc,
    airwheelSection_no_touch p _ _ d hd]
  simp

/-- C3: at most one touch event per sensor-data frame; the reported
action is the one of the highest set bit of the 15-bit action field
(first hit scanning from bit 14 down); with bits {14, 11, 3} set the
sole event is the bit-14 action, double-tap center. -/
theorem C3_touch_priority :
    (∀ p evs, handle_sensor_data p = .ok evs →
      (evs.filter isTouchEv).length ≤ 1) ∧
    (∀ p evs p0 p1 t0 t1 b,
      handle_sensor_data p = .ok evs →
      p[0]? = some p0 → p[1]? = some p1 →
      p[10]? = some t0 → p[11]? = some t1 →
      (p0 ||| p1 <<< 8) &&& SW_DATA_TOUCH ≠ 0 →
      b ≤ 14 → ((t1 <<< 8) ||| t0).testBit b = true →
      (∀ j, b < j → j ≤ 14 → ((t1 <<< 8) ||| t0).testBit j = false) →
      evs.filter isTouchEv = [touchEventAt (14 - b)]) ∧
    (handle_sensor_data
        [0x04, 0x00, 0x00, 0x00, 0x00, 0x00, 0x00, 0x00, 0x00, 0x00, 0x08, 0x48] =
      .ok [Event.touch "doubletap" "center"]) := by
  refine ⟨?_, ?_, by decide⟩
  · intro p evs h
    obtain ⟨p0, p1, c, h0, h1, hc, hfe⟩ := handle_filter_touch p evs h
    rw [hfe]
    exact touchSection_length p _ c hc
  · intro p evs p0 p1 t0 t1 b h h0 h1 h10 h11 hbit hble hset hhi
    obtain ⟨p0x, p1x, c, h0x, h1x, hc, hfe⟩ := handle_filter_touch p evs h
    rw [h0] at h0x; rw [h1] at h1x
    injection h0x with h0x; injection h1x with h1x
    subst h0x; subst h1x
    rw [hfe, touchSection_scan p _ c t0 t1 hbit h10 h11 hc]
    exact touchScan_highest_bit _ b hble hset hhi

/-- C3 witness: a payload with configmask TOUCH and action bits
{14, 11, 3} (bytes 0x08, 0x48) decodes to the single bit-14 action. -/
theorem C3_touch_priority_witness :
    ([Event.touch "doubletap" "center"] : List Event).filter isTouchEv =
      [touchEventAt 0] :=
  C3_touch_priority.2.1
    [0x04, 0x00, 0x00, 0x00, 0x00, 0x00, 0x00, 0x00, 0x00, 0x00, 0x08, 0x48]
    [Event.touch "doubletap" "center"] 0x04 0x00 0x08 0x48 14
    (by decide) (by decide) (by decide) (by decide) (by decide) (by decide)
    (by decide) (by decide) (by intro j hj1 hj2; omega)

/-- C7: a PositionSample is emitted iff both the configmask XYZ bit and
the sysinfo POSITION_VALID bit hold. -/
theorem C7_position_gating :
    ∀ p evs p0 p1 si,
      handle_sensor_data p = .ok evs →
      p[0]? = some p0 → p[1]? = some p1 → p[3]? = some si →
      ((∃ x y z, Event.position x y z ∈ evs) ↔
        ((p0 ||| p1 <<< 8) &&& SW_DATA_XYZ ≠ 0 ∧
          si &&& SYS_POSITION_VALID ≠ 0)) := by
  intro p evs p0 p1 si h h0 h1 h3
  obtain ⟨p0x, p1x, six, a, b, c, d, h0x, h1x, h3x, ha, hb, hc, hd, hevs⟩ :=
    handle_ok_parts p evs h
  rw [h0] at h0x; rw [h1] at h1x; rw [h3] at h3x
  injection h0x with h0x; injection h1x with h1x; injection h3x with h3x
  subst h0x; subst h1x; subst h3x; subst hevs
  rw [← xyzSection_pos_iff p _ _ a ha]
  constructor
  · rintro ⟨x, y, z, hmem⟩
    simp only [List.mem_append] at hmem
    rcases hmem with ((hmem | hmem) | hmem) | hmem
    · exact ⟨x, y, z, hmem⟩
    · exact absurd hmem (gestureSection_no_pos p _ b hb x y z)
    · exact absurd hmem (touchSection_no_pos p _ c hc x y z)
    · exact absurd hmem (airwheelSection_no_pos p _ _ d hd x y z)
  · rintro ⟨x, y, z, hmem⟩
    exact ⟨x, y, z, by simp [hmem]⟩

/-- C7 witness: configmask XYZ set but POSITION_VALID clear yields no
PositionSample (payload `[0x10, 0x00, 0x00, 0x00]`). -/
theorem C7_position_gating_witness :
    ¬ ∃ x y z, Event.position x y z ∈ ([] : List Event) := by
  have h := C7_position_gating [0x10, 0x00, 0x00, 0x00] [] 0x10 0x00 0x00
    (by decide) (by decide) (by decide) (by decide)
  rw [h]
  decide

/-- C10: bit 15 of the touch action field is never examined: an action
field of 0x8000 (bytes 0x00, 0x80) produces no touch event even with
the TOUCH configmask bit set. -/
theorem C10_bit15_never_examined :
    ∀ p evs p0 p1,
      handle_sensor_data p = .ok evs →
      p[0]? = some p0 → p[1]? = some p1 →
      (p0 ||| p1 <<< 8) &&& SW_DATA_TOUCH ≠ 0 →
      p[10]? = some 0x00 → p[11]? = some 0x80 →
      evs.filter isTouchEv = [] := by
  intro p evs p0 p1 h h0 h1 hbit h10 h11
  obtain ⟨p0x, p1x, c, h0x, h1x, hc, hfe⟩ := handle_filter_touch p evs h
  rw [h0] at h0x; rw [h1] at h1x
  injection h0x with h0x; injection h1x with h1x
  subst h0x; subst h1x
  rw [hfe, touchSection_scan p _ c 0x00 0x80 hbit h10 h11 hc]
  decide

/-- C10 witness: payload with TOUCH bit set and action field 0x8000
decodes with no touch event. -/
theorem C10_bit15_never_examined_witness :
    ([] : List Event).filter isTouchEv = [] :=
  C10_bit15_never_examined
    [0x04, 0x00, 0x00, 0x00, 0x00, 0x00, 0x00, 0x00, 0x00, 0x00, 0x00, 0x80]
    [] 0x04 0x00 (by decide) (by decide) (by decide) (by decide)
    (by decide) (by decide)

/-! ## Normalization bounds (C2) -/

lemma roundHalfEven_bounds (q : ℚ) :
    q.floor ≤ roundHalfEven q ∧ roundHalfEven q ≤ q.floor + 1 := by
  simp only [roundHalfEven]
  split
  · omega
  · split
    · omega
    · split <;> omega

lemma rat_floor_eq_intFloor (q : ℚ) : q.floor = ⌊q⌋ := by
  rw [Rat.floor_def', Rat.floor_def]

/-- C2 (amended): for every 16-bit raw value the normalized axis value
lies in the closed interval `[0, 1]`; `normalize(0) = 0` and
`normalize(65535) = 1` (the claimed strict upper bound fails at the top
of the range, where rounding to 4 digits reaches 1.0). -/
theorem C2_normalize_bounds :
    (∀ v : Nat, v ≤ 65535 →
      0 ≤ normalize_0_1 v ∧ normalize_0_1 v ≤ 1) ∧
    normalize_0_1 0 = 0 ∧ normalize_0_1 65535 = 1 := by
  refine ⟨?_, by decide, by decide⟩
  intro v hv
  have hq0 : (0 : ℚ) ≤ Rat.divInt (v * 10000) 65536 := by
    rw [Rat.divInt_eq_div]
    positivity
  have hqlt : Rat.divInt (v * 10000) 65536 < 10000 := by
    rw [Rat.divInt_eq_div]
    push_cast
    rw [div_lt_iff₀ (by norm_num : (0 : ℚ) < 65536)]
    have hvc : (v : ℚ) ≤ 65535 := by exact_mod_cast hv
    nlinarith
  have hr := roundHalfEven_bounds (Rat.divInt (v * 10000) 65536)
  rw [rat_floor_eq_intFloor] at hr
  have hfl0 : 0 ≤ ⌊Rat.divInt (v * 10000) 65536⌋ := Int.floor_nonneg.mpr hq0
  have hfl1 : ⌊Rat.divInt (v * 10000) 65536⌋ < 10000 := by
    rw [Int.floor_lt]
    exact_mod_cast hqlt
  unfold normalize_0_1
  rw [Rat.divInt_eq_div]
  push_cast
  constructor
  · apply div_nonneg _ (by norm_num)
    exact_mod_cast le_trans hfl0 hr.1
  · rw [div_le_one (by norm_num)]
    exact_mod_cast le_trans hr.2 (by omega)

/-- C2 witness: the bounds at the concrete raw value 40000. -/
theorem C2_normalize_bounds_witness :
    0 ≤ normalize_0_1 40000 ∧ normalize_0_1 40000 ≤ 1 :=
  C2_normalize_bounds.1 40000 (by norm_num)

/-- C2 counterexample: `normalize(65535)` is exactly 1, not below 1 and
not 0.9999. -/
theorem C2_normalize_counterexample :
    normalize_0_1 65535 = 1 ∧ ¬ normalize_0_1 65535 < 1 ∧
      normalize_0_1 65535 ≠ Rat.divInt 9999 10000 := by decide

/-! ## Frame dispatch lemmas and the end-to-end decode (C1, C8, C9) -/

lemma idx_congr (p q : List Nat) (i : Nat) (h : p[i]? = q[i]?) :
    idx p i = idx q i := by
  unfold idx; rw [h]

/-- The sensor-data decoder reads only payload offsets `≤ 21`. -/
lemma handle_congr (p q : List Nat) (h : ∀ i, i ≤ 21 → p[i]? = q[i]?) :
    handle_sensor_data p = handle_sensor_data q := by
  have e0 := idx_congr p q 0 (h 0 (by omega))
  have e1 := idx_congr p q 1 (h 1 (by omega))
  have e3 := idx_congr p q 3 (h 3 (by omega))
  have e6 := idx_congr p q 6 (h 6 (by omega))
  have e10 := idx_congr p q 10 (h 10 (by omega))
  have e11 := idx_congr p q 11 (h 11 (by omega))
  have e14 := idx_congr p q 14 (h 14 (by omega))
  have e16 := idx_congr p q 16 (h 16 (by omega))
  have e17 := idx_congr p q 17 (h 17 (by omega))
  have e18 := idx_congr p q 18 (h 18 (by omega))
  have e19 := idx_congr p q 19 (h 19 (by omega))
  have e20 := idx_congr p q 20 (h 20 (by omega))
  have e21 := idx_congr p q 21 (h 21 (by omega))
  unfold handle_sensor_data xyzSection gestureSection touchSection airwheelSection
  simp only [e0, e1, e3, e6, e10, e11, e14, e16, e17, e18, e19, e20, e21]

lemma process_frame_sensor (frame : List Nat) (h4 : 4 ≤ frame.length)
    (hid : frame.getD 3 0 = SW_SENSOR_DATA) :
    process_frame frame = handle_sensor_data (frame.drop 4) := by
  simp only [process_frame, hid]
  rw [if_neg (by omega), if_pos trivial]

lemma process_frame_fw (frame : List Nat) (h4 : 4 ≤ frame.length)
    (hid : frame.getD 3 0 = SW_FW_VERSION) :
    process_frame frame =
      .ok [Event.fw (pyStrip (utf8DecodeIgnore ((frame.drop 4).drop 8)))] := by
  simp only [process_frame, hid]
  rw [if_neg (by omega), if_neg (by decide), if_neg (by decide), if_pos trivial]

/-- The end-to-end frame of the spec, byte for byte as the spec lists
it (22 bytes before the trailing filler). -/
def C1_CLAIM_FRAME : List Nat :=
  [0x1E, 0x00, 0x00, 0x91, 0x1F, 0x00, 0x00, 0x01, 0x00, 0x00,
   0x00, 0x00, 0x00, 0x00, 0x10, 0x00, 0x80, 0x80, 0x80, 0x80, 0x80, 0x80]

/-- What decoding the literal byte list of the spec (padded to 32 bytes with
zeros) actually produces. -/
def C1_CLAIM_FRAME_EVENTS : List Event :=
  [Event.position (Rat.divInt 502 1000) 0 0, Event.touch "touch" "center"]

/-- C1 counterexample: the literal frame of the spec decodes to a position
sample with `y = z = 0`, a touch event, no gesture and no air-wheel
sample - not the claimed events. -/
theorem C1_decode_counterexample :
    process_frame (C1_CLAIM_FRAME ++ List.replicate 10 0) =
        .ok C1_CLAIM_FRAME_EVENTS ∧
      Event.touch "touch" "center" ∈ C1_CLAIM_FRAME_EVENTS ∧
      Event.gestureNamed "garbage" "" "" ∉ C1_CLAIM_FRAME_EVENTS ∧
      Event.airwheel 0x10 ∉ C1_CLAIM_FRAME_EVENTS ∧
      Event.position (Rat.divInt 502 1000) (Rat.divInt 502 1000)
        (Rat.divInt 502 1000) ∉ C1_CLAIM_FRAME_EVENTS := by
  decide

/-- The frame the annotation of the spec describes: configmask `0x1F`,
sysinfo `0x03`, gesture id 1, touch field 0, air-wheel byte `0x10`,
`x = y = z = 0x8080` at payload offsets 16-21. -/
def C1_FIXED_FRAME : List Nat :=
  [0x1E, 0x00, 0x00, 0x91,
   0x1F, 0x00, 0x00, 0x03, 0x00, 0x00,
   0x01, 0x00, 0x00, 0x00,
   0x00, 0x00, 0x00, 0x00,
   0x10, 0x00,
   0x80, 0x80, 0x80, 0x80, 0x80, 0x80]

/-- C1 (amended): with the frame matching the annotation of the spec, the
decode yields exactly a position sample at 0.5020 on each axis, the
garbage gesture, and an air-wheel sample of 0x10 - and no touch event -
for any trailing bytes. -/
theorem C1_decode_amended (tail : List Nat) :
    process_frame (C1_FIXED_FRAME ++ tail) =
      .ok [Event.position (Rat.divInt 502 1000) (Rat.divInt 502 1000)
             (Rat.divInt 502 1000),
           Event.gestureNamed "garbage" "" "",
           Event.airwheel 0x10] := by
  have hlen : (C1_FIXED_FRAME ++ tail).length = 26 + tail.length := by
    simp [C1_FIXED_FRAME]; omega
  rw [process_frame_sensor _ (by omega)
    (by rw [List.getD_eq_getElem?_getD, List.getElem?_append_left (by simp [C1_FIXED_FRAME])]; rfl)]
  rw [List.drop_append_of_le_length (by simp [C1_FIXED_FRAME])]
  rw [handle_congr (C1_FIXED_FRAME.drop 4 ++ tail) (C1_FIXED_FRAME.drop 4)
    (fun i hi => List.getElem?_append_left (by simp [C1_FIXED_FRAME]; omega))]
  decide

/-- C1 witness: the amended decode at the concrete trailing filler of
six zero bytes. -/
theorem C1_decode_amended_witness :
    process_frame (C1_FIXED_FRAME ++ List.replicate 6 0) =
      .ok [Event.position (Rat.divInt 502 1000) (Rat.divInt 502 1000)
             (Rat.divInt 502 1000),
           Event.gestureNamed "garbage" "" "",
           Event.airwheel 0x10] :=
  C1_decode_amended (List.replicate 6 0)

/-! ## Firmware-version decode (C8) -/

/-- Modelled from the spec: the words "with trailing NUL/CR/LF/space
characters stripped"): strip only the right end. -/
def pyStripTrailingOnly (l : List Nat) : List Nat :=
  (l.reverse.dropWhile (fun c => STRIP_CHARS.contains c)).reverse

/-- C8 (amended): a FIRMWARE_VERSION frame always decodes (invalid byte
sequences are skipped, never an error) to the text of `payload[8:]`
with NUL/CR/LF/space stripped from both ends (`str.strip` strips
leading characters too, not only trailing ones). -/
theorem C8_firmware_decode (frame : List Nat) (h4 : 4 ≤ frame.length)
    (hid : frame.getD 3 0 = SW_FW_VERSION) :
    process_frame frame =
      .ok [Event.fw (pyStrip (utf8DecodeIgnore ((frame.drop 4).drop 8)))] :=
  process_frame_fw frame h4 hid

/-- C8 witness: the decode at a concrete firmware frame whose text
carries trailing NUL padding (text "FW" followed by two NULs). -/
theorem C8_firmware_decode_witness :
    process_frame
        [0x0E, 0x00, 0x00, 0x83, 0, 0, 0, 0, 0, 0, 0, 0, 0x46, 0x57, 0x00, 0x00] =
      .ok [Event.fw [0x46, 0x57]] := by
  rw [C8_firmware_decode
    [0x0E, 0x00, 0x00, 0x83, 0, 0, 0, 0, 0, 0, 0, 0, 0x46, 0x57, 0x00, 0x00]
    (by decide) (by decide)]
  decide

/-- C8 counterexample: a firmware text beginning with a NUL byte.  The
code returns the text with the leading NUL stripped as well, not the
trailing-only strip the claim describes. -/
theorem C8_firmware_strip_counterexample :
    process_frame [0x0A, 0x00, 0x00, 0x83, 0, 0, 0, 0, 0, 0, 0, 0, 0x00, 0x41] =
        .ok [Event.fw [0x41]] ∧
      process_frame [0x0A, 0x00, 0x00, 0x83, 0, 0, 0, 0, 0, 0, 0, 0, 0x00, 0x41] ≠
        .ok [Event.fw (pyStripTrailingOnly (utf8DecodeIgnore
          (([0x0A, 0x00, 0x00, 0x83, 0, 0, 0, 0, 0, 0, 0, 0, 0x00, 0x41].drop 4).drop 8)))] := by
  decide

/-! ## Short sensor-data frames (C9) -/

/-- C9: the length-4 guard is the only length check: a sensor-data
frame shorter than the fixed payload offsets (here 8 bytes, with the
XYZ configmask bit and POSITION_VALID set) makes the payload
indexing fail instead of the frame being dropped. -/
theorem C9_short_frame_index_error :
    ∃ (frame : List Nat) (p0 p1 si : Nat),
      4 ≤ frame.length ∧ frame.length < 26 ∧
      frame[3]? = some SW_SENSOR_DATA ∧
      (frame.drop 4)[0]? = some p0 ∧ (frame.drop 4)[1]? = some p1 ∧
      (frame.drop 4)[3]? = some si ∧
      (p0 ||| p1 <<< 8) &&& SW_DATA_XYZ ≠ 0 ∧
      si &&& SYS_POSITION_VALID ≠ 0 ∧
      process_frame frame = .error () := by
  refine ⟨[0x06, 0x00, 0x00, 0x91, 0x10, 0x00, 0x00, 0x01], 0x10, 0x00, 0x01,
    ?_, ?_, ?_, ?_, ?_, ?_, ?_, ?_, ?_⟩ <;> decide

/-! ## Transfer-line release (C4) -/

/-- C4: every exit path of `read_frame_raw` that has taken output
ownership of the transfer line (the pin-operation trace is non-empty)
drives it high and restores input-with-pull-up, unconditionally - also
when the 32-byte bus read fails; the error still propagates. -/
theorem C4_transfer_line_release :
    (∀ xfer bus, (read_frame_raw xfer bus).2 = [] ∨
      (read_frame_raw xfer bus).2 = PinOp.initOutLow :: XFER_RELEASE) ∧
    (∀ xfer bus, PinOp.initOutLow ∈ (read_frame_raw xfer bus).2 →
      (read_frame_raw xfer bus).2 = PinOp.initOutLow :: XFER_RELEASE) ∧
    ((read_frame_raw true (.error ())).1 = .error () ∧
      (read_frame_raw true (.error ())).2 = PinOp.initOutLow :: XFER_RELEASE) ∧
    (∀ rx, read_frame_raw true (.ok rx) =
      (.ok (some rx), PinOp.initOutLow :: XFER_RELEASE)) ∧
    (∀ bus, read_frame_raw false bus = (.ok none, [])) := by
  refine ⟨?_, ?_, ⟨rfl, rfl⟩, ?_, ?_⟩
  · intro xfer bus
    cases xfer <;> cases bus <;> simp [read_frame_raw]
  · intro xfer bus hmem
    cases xfer <;> cases bus <;> simp_all [read_frame_raw]
  · intro rx; rfl
  · intro bus; cases bus <;> rfl

/-- C4 witness: on the bus-error path the release trace is present. -/
theorem C4_transfer_line_release_witness :
    (read_frame_raw true (.error ())).2 = PinOp.initOutLow :: XFER_RELEASE :=
  C4_transfer_line_release.2.1 true (.error ()) (by decide)

/-! ## Status-wait lemmas and bounded retries (C5) -/

lemma check_frame_of_wf (cmd : Nat) (d : Option (List Nat)) (h : wfFrame d) :
    check_frame cmd d = .ok (status_match cmd d) := by
  cases d with
  | none => rfl
  | some f =>
    have hlen : f.length = 32 := h f rfl
    have hne : f ≠ [] := by
      intro he; rw [he] at hlen; simp at hlen
    obtain ⟨b3, h3⟩ : ∃ b, f[3]? = some b := by
      rw [List.getElem?_eq_getElem (by omega)]; exact ⟨_, rfl⟩
    obtain ⟨b4, h4⟩ : ∃ b, f[4]? = some b := by
      rw [List.getElem?_eq_getElem (by omega)]; exact ⟨_, rfl⟩
    simp only [check_frame, idx, status_match]
    rw [if_neg hne, h3, h4]
    by_cases h15 : b3 = SW_SYSTEM_STATUS
    · simp [h15]
    · simp [h15]

lemma check_frame_of_match (cmd : Nat) (d : Option (List Nat))
    (h : status_match cmd d = true) : check_frame cmd d = .ok true := by
  cases d with
  | none => simp [status_match] at h
  | some f =>
    unfold status_match at h
    rw [Bool.and_eq_true, decide_eq_true_eq, decide_eq_true_eq] at h
    obtain ⟨h3, h4⟩ := h
    have hne : f ≠ [] := by
      intro he; rw [he] at h3; simp at h3
    simp only [check_frame, idx]
    rw [if_neg hne, h3, h4]
    simp

lemma gs_none (cmd : Nat) (env : Nat → Option (List Nat)) :
    ∀ n start,
      (∀ i, start ≤ i → i < start + n →
        wfFrame (env i) ∧ status_match cmd (env i) = false) →
      get_status_from cmd env start n = .ok (false, start + n) := by
  intro n
  induction n with
  | zero => intro start h; rfl
  | succ m ih =>
    intro start h
    have hc := check_frame_of_wf cmd (env start) (h start (by omega) (by omega)).1
    rw [(h start (by omega) (by omega)).2] at hc
    rw [get_status_from, hc]
    rw [ih (start + 1) (fun i hi1 hi2 => h i (by omega) (by omega))]
    rw [show start + 1 + m = start + (m + 1) by omega]

lemma gs_first (cmd : Nat) (env : Nat → Option (List Nat)) :
    ∀ n start j, start ≤ j → j < start + n →
      (∀ i, start ≤ i → i < j →
        wfFrame (env i) ∧ status_match cmd (env i) = false) →
      status_match cmd (env j) = true →
      get_status_from cmd env start n = .ok (true, j + 1) := by
  intro n
  induction n with
  | zero => intro start j h1 h2; omega
  | succ m ih =>
    intro start j hsj hjn hmiss hmatch
    by_cases hj : j = start
    · subst hj
      rw [get_status_from, check_frame_of_match cmd (env j) hmatch]
    · have hc := check_frame_of_wf cmd (env start) (hmiss start (by omega) (by omega)).1
      rw [(hmiss start (by omega) (by omega)).2] at hc
      rw [get_status_from, hc]
      exact ih (start + 1) j (by omega) (by omega)
        (fun i h1 h2 => hmiss i (by omega) h2) hmatch

/-- C5: when no poll up to `tries` yields a status frame matching the
expected command id, the wait consumes exactly `tries` attempts and
returns failure; when attempt `j` is the first to match, it returns
success right there (after `j + 1` attempts). -/
theorem C5_await_status :
    (∀ cmd tries env,
      (∀ i, i < tries →
        wfFrame (env i) ∧ status_match cmd (env i) = false) →
      get_status_from cmd env 0 tries = .ok (false, tries) ∧
      get_status_expect cmd tries env = .ok false) ∧
    (∀ cmd tries env j, j < tries →
      (∀ i, i < j →
        wfFrame (env i) ∧ status_match cmd (env i) = false) →
      status_match cmd (env j) = true →
      get_status_from cmd env 0 tries = .ok (true, j + 1) ∧
      get_status_expect cmd tries env = .ok true) := by
  constructor
  · intro cmd tries env h
    have hg := gs_none cmd env tries 0 (fun i hi1 hi2 => h i (by omega))
    rw [show (0 : Nat) + tries = tries by omega] at hg
    exact ⟨hg, by unfold get_status_expect; rw [hg]⟩
  · intro cmd tries env j hj hmiss hmatch
    have hg := gs_first cmd env tries 0 j (by omega) (by omega)
      (fun i hi1 hi2 => hmiss i hi2) hmatch
    exact ⟨hg, by unfold get_status_expect; rw [hg]⟩

/-- A 32-byte status frame acknowledging SET_RUNTIME. -/
def STATUS_FRAME_EXAMPLE : List Nat :=
  [0x10, 0x00, 0x00, 0x15, 0xA2] ++ List.replicate 27 0

/-- C5 witness: an environment that never yields any frame exhausts the
default 10 tries and fails; one that matches on the first poll
succeeds immediately. -/
theorem C5_await_status_witness :
    get_status_expect SW_SET_RUNTIME 10 (fun _ => none) = .ok false ∧
    get_status_expect SW_SET_RUNTIME 10
      (fun _ => some (STATUS_FRAME_EXAMPLE)) = .ok true :=
  by
  constructor
  · exact (C5_await_status.1 SW_SET_RUNTIME 10 (fun _ => none)
      (by intro i hi; exact ⟨(by intro f hf; cases hf), rfl⟩)).2
  · exact (C5_await_status.2 SW_SET_RUNTIME 10
      (fun _ => some STATUS_FRAME_EXAMPLE) 0
      (by omega) (by intro i hi; omega) (by decide)).2

/-! ## The four-step configuration handshake (C6) -/

/-- C6: the exact four 15-byte writes to register 0x10, in the fixed
order air-wheel / gestures / data-outputs / auto-calibration-off; each
write is followed by a status wait; a step whose wait exhausts its ten
polls fails with the error of that step and no later write is issued. -/
theorem C6_configure :
    (CONFIG_WRITES.length = 4 ∧
      ∀ w ∈ CONFIG_WRITES, w.1 = 0x10 ∧ w.2.length = 15) ∧
    (∀ env, (configure_runtime env).res = .ok () →
      (configure_runtime env).writes = CONFIG_WRITES) ∧
    (∀ env, (configure_runtime env).waitStarts.length =
      (configure_runtime env).writes.length) ∧
    (∀ env (k : Fin 4), (configure_runtime env).res = .error (stepError k) →
      (configure_runtime env).writes = CONFIG_WRITES.take (k.val + 1)) ∧
    (∀ env (k : Fin 4) c,
      (configure_runtime env).waitStarts[k.val]? = some c →
      (∀ i, c ≤ i → i < c + 10 →
        wfFrame (env i) ∧ status_match SW_SET_RUNTIME (env i) = false) →
      (configure_runtime env).res = .error (stepError k)) := by
  refine ⟨by decide, ?_, ?_, ?_, ?_⟩
  · intro env
    rcases h1 : get_status_from SW_SET_RUNTIME env 0 10 with e1 | ⟨b1, t1⟩
    · simp [configure_runtime, h1]
    cases b1
    · simp [configure_runtime, h1]
    rcases h2 : get_status_from SW_SET_RUNTIME env t1 10 with e2 | ⟨b2, t2⟩
    · simp [configure_runtime, h1, h2]
    cases b2
    · simp [configure_runtime, h1, h2]
    rcases h3 : get_status_from SW_SET_RUNTIME env t2 10 with e3 | ⟨b3, t3⟩
    · simp [configure_runtime, h1, h2, h3]
    cases b3
    · simp [configure_runtime, h1, h2, h3]
    rcases h4 : get_status_from SW_SET_RUNTIME env t3 10 with e4 | ⟨b4, t4⟩
    · simp [configure_runtime, h1, h2, h3, h4]
    cases b4
    · simp [configure_runtime, h1, h2, h3, h4]
    · simp [configure_runtime, h1, h2, h3, h4]
  · intro env
    rcases h1 : get_status_from SW_SET_RUNTIME env 0 10 with e1 | ⟨b1, t1⟩
    · simp [configure_runtime, h1]
    cases b1
    · simp [configure_runtime, h1]
    rcases h2 : get_status_from SW_SET_RUNTIME env t1 10 with e2 | ⟨b2, t2⟩
    · simp [configure_runtime, h1, h2]
    cases b2
    · simp [configure_runtime, h1, h2]
    rcases h3 : get_status_from SW_SET_RUNTIME env t2 10 with e3 | ⟨b3, t3⟩
    · simp [configure_runtime, h1, h2, h3, CONFIG_WRITES]
    cases b3
    · simp [configure_runtime, h1, h2, h3, CONFIG_WRITES]
    rcases h4 : get_status_from SW_SET_RUNTIME env t3 10 with e4 | ⟨b4, t4⟩
    · simp [configure_runtime, h1, h2, h3, h4, CONFIG_WRITES]
    cases b4
    · simp [configure_runtime, h1, h2, h3, h4, CONFIG_WRITES]
    · simp [configure_runtime, h1, h2, h3, h4, CONFIG_WRITES]
  · intro env k
    rcases h1 : get_status_from SW_SET_RUNTIME env 0 10 with e1 | ⟨b1, t1⟩
    · simp only [configure_runtime, h1]
      intro h
      exact absurd h (by fin_cases k <;> simp [stepError])
    cases b1
    · simp only [configure_runtime, h1]
      intro h
      have hk : k = 0 := by
        fin_cases k <;> simp_all [stepError]
      subst hk
      decide
    rcases h2 : get_status_from SW_SET_RUNTIME env t1 10 with e2 | ⟨b2, t2⟩
    · simp only [configure_runtime, h1, h2]
      intro h
      exact absurd h (by fin_cases k <;> simp [stepError])
    cases b2
    · simp only [configure_runtime, h1, h2]
      intro h
      have hk : k = 1 := by
        fin_cases k <;> simp_all [stepError]
      subst hk
      decide
    rcases h3 : get_status_from SW_SET_RUNTIME env t2 10 with e3 | ⟨b3, t3⟩
    · simp only [configure_runtime, h1, h2, h3]
      intro h
      exact absurd h (by fin_cases k <;> simp [stepError])
    cases b3
    · simp only [configure_runtime, h1, h2, h3]
      intro h
      have hk : k = 2 := by
        fin_cases k <;> simp_all [stepError]
      subst hk
      decide
    rcases h4 : get_status_from SW_SET_RUNTIME env t3 10 with e4 | ⟨b4, t4⟩
    · simp only [configure_runtime, h1, h2, h3, h4]
      intro h
      exact absurd h (by fin_cases k <;> simp [stepError])
    cases b4
    · simp only [configure_runtime, h1, h2, h3, h4]
      intro h
      have hk : k = 3 := by
        fin_cases k <;> simp_all [stepError]
      subst hk
      decide
    · simp only [configure_runtime, h1, h2, h3, h4]
      intro h
      exact absurd h (by simp)
  · intro env k c hk hno
    have hfail := gs_none SW_SET_RUNTIME env 10 c hno
    rcases h1 : get_status_from SW_SET_RUNTIME env 0 10 with e1 | ⟨b1, t1⟩
    · simp only [configure_runtime, h1] at hk ⊢
      fin_cases k <;> simp_all [stepError]
    cases b1
    · simp only [configure_runtime, h1] at hk ⊢
      fin_cases k <;> simp_all [stepError]
    rcases h2 : get_status_from SW_SET_RUNTIME env t1 10 with e2 | ⟨b2, t2⟩
    · simp only [configure_runtime, h1, h2] at hk ⊢
      fin_cases k <;> simp_all [stepError]
    cases b2
    · simp only [configure_runtime, h1, h2] at hk ⊢
      fin_cases k <;> simp_all [stepError]
    rcases h3 : get_status_from SW_SET_RUNTIME env t2 10 with e3 | ⟨b3, t3⟩
    · simp only [configure_runtime, h1, h2, h3] at hk ⊢
      fin_cases k <;> simp_all [stepError]
    cases b3
    · simp only [configure_runtime, h1, h2, h3] at hk ⊢
      fin_cases k <;> simp_all [stepError]
    rcases h4 : get_status_from SW_SET_RUNTIME env t3 10 with e4 | ⟨b4, t4⟩
    · simp only [configure_runtime, h1, h2, h3, h4] at hk ⊢
      fin_cases k <;> simp_all [stepError]
    cases b4
    · simp only [configure_runtime, h1, h2, h3, h4] at hk ⊢
      fin_cases k <;> simp_all [stepError]
    · simp only [configure_runtime, h1, h2, h3, h4] at hk ⊢
      fin_cases k <;> simp_all [stepError]

/-- C6 witness: with an environment that never yields a frame, the
first wait exhausts and `configure()` fails with the air-wheel
error; only the first write was issued. -/
theorem C6_configure_witness :
    (configure_runtime (fun _ => none)).res = .error (stepError 0) :=
  C6_configure.2.2.2.2 (fun _ => none) 0 0 (by decide)
    (by intro i hi1 hi2; exact ⟨(by intro f hf; cases hf), rfl⟩)

end Skywriter

